import Mathlib

/-!
Shallow embedding of `medical_app/views.py` (MedAI_Chat): the two JSON API
endpoints `chat_api` and `initial_consultation_api`, their prompt
construction (intake block, conversation-history truncation, HTML-tag
stripping of assistant messages) and their JSON/HTTP response envelopes.

Python strings are modelled as Lean `String`; Python `s[:n]` is `pyTake`
(a prefix of the character list), `l[-6:]` is `recentHistory` (a suffix of
the list); `dict.get(k, d)` on the string-valued intake dict is `dictGet`
over an association list; `re.sub(r'<[^>]+>', '', s)` is `stripTags`, a
single left-to-right scan that removes each leftmost occurrence of a
`<`, one or more non-`>` characters, then `>`.  The external
`model.generate_content` call is an oracle `api : String → ApiResult`
passed as a parameter; a raised exception is `ApiResult.exn msg` and a
returned response with text is `ApiResult.ok text` (empty text models a
falsy `response.text`).  `json.loads` is the `Except String _` field of a
request: `.error e` is a parse failure raising an exception with message
`e`.
-/

namespace MedAI

/-- One entry of the conversation history: a Python dict with optional
`role` and `content` keys (`msg.get('role', '')` / `msg.get('content', '')`). -/
structure HistoryMsg where
  role : Option String
  content : Option String
deriving DecidableEq

/-- The `intake_data` dict: string keys to string-rendered values;
`dict.get` takes the first binding.  Python truthiness of the dict is
non-emptiness of the list. -/
abbrev IntakeData := List (String × String)

/-- `d.get(k, dflt)` on the intake dict. -/
def dictGet (d : IntakeData) (k dflt : String) : String :=
  match d.lookup k with
  | some v => v
  | none => dflt

/-- Parsed JSON body of a `POST /api/chat/` request; `none` fields model
absent keys, so `data.get('message', '')` is `message.getD ""` etc. -/
structure ChatData where
  message : Option String
  history : Option (List HistoryMsg)
  intake_data : Option IntakeData

/-- Parsed JSON body of a `POST /api/initial-consultation/` request. -/
structure ConsultData where
  intake_data : Option IntakeData

/-- An incoming HTTP request: its method string and the result of
`json.loads(request.body)` (`.error e` = the parse raised an exception
whose `str` is `e`). -/
structure Request (β : Type) where
  method : String
  body : Except String β

/-- Outcome of the external `model.generate_content` call: a response
whose `.text` is `text` (possibly empty, which Python treats as falsy),
or a raised exception with message `msg`. -/
inductive ApiResult where
  | ok (text : String)
  | exn (msg : String)
deriving DecidableEq

/-- A `JsonResponse`: HTTP status code and the JSON object as an ordered
list of key/value pairs (all values in this app are strings). -/
structure HttpResponse where
  status : Nat
  body : List (String × String)
deriving DecidableEq

/-- Python `s[:n]` on a string (character prefix). -/
def pyTake (n : Nat) (s : String) : String :=
  ⟨s.data.take n⟩

/-- Scanner state for `re.sub(r'<[^>]+>', '', s)`: second constructor
argument `some buf` means we are past a `<` whose match is still open,
`buf` holding (reversed) the non-`>` characters consumed so far.  On a
`>`: if at least one character was consumed the whole `<...>` span is a
match and is dropped; a bare `<>` is no match and both characters are
kept.  At end of input an open `<` never matched and is emitted with its
buffer. -/
def stripAux : Option (List Char) → List Char → List Char
  | none, [] => []
  | some buf, [] => '<' :: buf.reverse
  | none, c :: rest =>
    if c = '<' then stripAux (some []) rest else c :: stripAux none rest
  | some buf, c :: rest =>
    if c = '>' then
      if buf = [] then '<' :: '>' :: stripAux none rest
      else stripAux none rest
    else stripAux (some (c :: buf)) rest

/-- `re.sub(r'<[^>]+>', '', s)` on character lists. -/
def stripTagsList (l : List Char) : List Char :=
  stripAux none l

/-- `re.sub(r'<[^>]+>', '', s)` on strings. -/
def stripTags (s : String) : String :=
  ⟨stripTagsList s.data⟩

/-- The loop body for one history entry: `user` entries yield
`"Patient: {content}\n"`, `assistant` entries yield `"You: {clean}\n"`
where `clean` is the tag-stripped content truncated to its first 500
characters plus `"..."` when longer than 500; any other role adds
nothing. -/
def historyLine (m : HistoryMsg) : String :=
  let role := m.role.getD ""
  let content := m.content.getD ""
  if role = "user" then
    "Patient: " ++ content ++ "\n"
  else if role = "assistant" then
    let clean := stripTags content
    let clean := if 500 < clean.length then pyTake 500 clean ++ "..." else clean
    "You: " ++ clean ++ "\n"
  else
    ""

/-- The `for msg in recent_history` loop accumulating `system_context`. -/
def historyLines : List HistoryMsg → String
  | [] => ""
  | m :: rest => historyLine m ++ historyLines rest

/-- Python `conversation_history[-6:]`: the last six entries (the whole
list when it has at most six). -/
def recentHistory (h : List HistoryMsg) : List HistoryMsg :=
  h.drop (h.length - 6)

/-- The `"RECENT CONVERSATION"` section appended when the history is
non-empty. -/
def historyBlock (h : List HistoryMsg) : String :=
  "\n\nRECENT CONVERSATION:\n" ++ historyLines (recentHistory h)

/-- The fixed system prompt of `chat_api` (views.py lines 39-60). -/
def chatSystemContextBase : String :=
"You are MedAI, a compassionate and knowledgeable medical AI assistant. Your role is to provide evidence-based health information and guidance while maintaining appropriate medical boundaries.

IMPORTANT GUIDELINES:
1. Be empathetic, supportive, and use clear language
2. Provide general health information and education
3. Always emphasize that you're not a substitute for professional medical advice
4. Never provide specific medical diagnoses or prescriptions
5. Focus on self-care guidance and when to seek medical attention
6. If symptoms sound serious or life-threatening, strongly urge immediate medical attention
7. Structure responses clearly with sections like \"Possible Causes\", \"Self-Care Advice\", \"When to See a Doctor\"
8. Use HTML formatting for better readability (paragraphs, lists, bold text)

EMERGENCY SYMPTOMS that require immediate medical attention:
- Difficulty breathing or shortness of breath
- Chest pain or pressure
- Severe bleeding
- Loss of consciousness or severe confusion
- Severe allergic reactions
- Suspected stroke symptoms (FAST: Face drooping, Arm weakness, Speech difficulty, Time to call 911)
- Severe abdominal pain
- High fever (above 103°F/39.4°C) with other serious symptoms
"

/-- The `PATIENT INFORMATION` block appended to the chat system context
when `intake_data` is truthy (views.py lines 63-73). -/
def chatIntakeBlock (ik : IntakeData) : String :=
  "\n\nPATIENT INFORMATION:\n- Age Range: " ++ dictGet ik "ageRange" "Not specified"
  ++ "\n- Sex: " ++ dictGet ik "sex" "Not specified"
  ++ "\n- Main Symptom: " ++ dictGet ik "symptom" "Not specified"
  ++ "\n- Duration: " ++ dictGet ik "duration" "Not specified"
  ++ "\n- Severity (1-5): " ++ dictGet ik "severity" "Not specified"
  ++ "\n- Additional Context: " ++ dictGet ik "context" "None provided"
  ++ "\n"

/-- `system_context` after the intake and history sections of `chat_api`
(views.py lines 39-92). -/
def chat_system_context (ik : IntakeData) (hist : List HistoryMsg) : String :=
  let s1 := if ik = [] then chatSystemContextBase
            else chatSystemContextBase ++ chatIntakeBlock ik
  if hist = [] then s1 else s1 ++ historyBlock hist

/-- The part of the chat prompt following `system_context`
(views.py lines 95-100). -/
def chatPromptTail (user_message : String) : String :=
  "\n\nCURRENT PATIENT MESSAGE:\n" ++ user_message
  ++ "\n\nPlease provide a helpful, medically-informed response. Use HTML formatting (paragraphs, bold text, lists) to make your response clear and easy to read. Structure your response with appropriate sections if needed."

/-- `full_prompt` of `chat_api`. -/
def chat_full_prompt (user_message : String) (ik : IntakeData)
    (hist : List HistoryMsg) : String :=
  chat_system_context ik hist ++ chatPromptTail user_message

/-- `chat_api` (views.py lines 23-125), with the Gemini call abstracted
as the oracle `api`. -/
def chat_api (api : String → ApiResult) (req : Request ChatData) : HttpResponse :=
  if req.method = "POST" then
    match req.body with
    | .error e =>
      ⟨500, [("error", "An error occurred while processing your request"),
             ("details", e), ("status", "error")]⟩
    | .ok data =>
      let user_message := data.message.getD ""
      let conversation_history := data.history.getD []
      let intake_data := data.intake_data.getD []
      if user_message = "" then
        ⟨400, [("error", "No message provided")]⟩
      else
        match api (chat_full_prompt user_message intake_data conversation_history) with
        | .exn e =>
          ⟨500, [("error", "An error occurred while processing your request"),
                 ("details", e), ("status", "error")]⟩
        | .ok text =>
          if text = "" then
            ⟨500, [("error", "No response generated from AI"), ("status", "error")]⟩
          else
            ⟨200, [("response", text), ("status", "success")]⟩
  else
    ⟨405, [("error", "Method not allowed")]⟩

/-- The prompt of `initial_consultation_api` (views.py lines 141-179). -/
def consult_prompt (ik : IntakeData) : String :=
"You are MedAI, a compassionate medical AI assistant. A patient has just shared their symptoms with you. Provide a thorough initial assessment.

PATIENT INFORMATION:
- Age Range: " ++ dictGet ik "ageRange" "Not specified"
  ++ "\n- Sex: " ++ dictGet ik "sex" "Not specified"
  ++ "\n- Main Symptom: " ++ dictGet ik "symptom" "Not specified"
  ++ "\n- Duration: " ++ dictGet ik "duration" "Not specified"
  ++ "\n- Severity (1-5): " ++ dictGet ik "severity" "Not specified"
  ++ "\n- Additional Context: " ++ dictGet ik "context" "None provided"
  ++ "

INSTRUCTIONS:
1. Start with a warm, empathetic greeting
2. Provide an initial assessment with possible causes (use collapsible HTML sections)
3. Offer evidence-based self-care advice
4. If severity is 4-5, include urgent care warning
5. Explain when to see a doctor
6. End by asking if they have questions

FORMAT YOUR RESPONSE WITH HTML:
- Use <p> for paragraphs
- Use <strong> for emphasis
- Use <ul> and <li> for lists
- Create collapsible sections like this:

<div class=\"collapsible-section active\">
    <div class=\"collapsible-header\" onclick=\"toggleCollapsible(this)\">
        <span>🔍 Section Title</span>
        <span class=\"collapsible-icon\">▼</span>
    </div>
    <div class=\"collapsible-content\">
        <div class=\"collapsible-body\">
            Content here with <strong>bold text</strong> and lists
        </div>
    </div>
</div>

Create sections for: Possible Causes, Self-Care Advice, When to See a Doctor, and (if severe) When to Seek Immediate Care.

Provide a comprehensive, caring, and medically-informed initial assessment."

/-- `initial_consultation_api` (views.py lines 127-203). -/
def initial_consultation_api (api : String → ApiResult)
    (req : Request ConsultData) : HttpResponse :=
  if req.method = "POST" then
    match req.body with
    | .error e =>
      ⟨500, [("error", "An error occurred"), ("details", e), ("status", "error")]⟩
    | .ok data =>
      let intake_data := data.intake_data.getD []
      if intake_data = [] then
        ⟨400, [("error", "No intake data provided")]⟩
      else
        match api (consult_prompt intake_data) with
        | .exn e =>
          ⟨500, [("error", "An error occurred"), ("details", e), ("status", "error")]⟩
        | .ok text =>
          if text = "" then
            ⟨500, [("error", "No response generated"), ("status", "error")]⟩
          else
            ⟨200, [("response", text), ("status", "success")]⟩
  else
    ⟨405, [("error", "Method not allowed")]⟩

/-- The two response shapes the endpoints actually produce: a success
body `{response, status}` with HTTP 200; a 500 error body
`{error, status}` or `{error, details, status}`; or a bare `{error}`
body with HTTP 400 or 405. -/
def wellShaped (r : HttpResponse) : Prop :=
  (r.status = 200 ∧ ∃ t, r.body = [("response", t), ("status", "success")])
  ∨ (r.status = 500 ∧
      ((∃ e, r.body = [("error", e), ("status", "error")])
        ∨ ∃ e d, r.body = [("error", e), ("details", d), ("status", "error")]))
  ∨ ((r.status = 400 ∨ r.status = 405) ∧ ∃ e, r.body = [("error", e)])

/-- User-role history entry with a 10000-character content, used to
exhibit that user content is embedded in the prompt untruncated. -/
def longContent : String :=
  ⟨List.replicate 10000 'a'⟩

theorem mk_length (l : List Char) : (String.mk l).length = l.length := rfl

theorem longContent_data : longContent.data = List.replicate 10000 'a' := rfl

theorem longContent_length : longContent.length = 10000 := by
  rw [show longContent.length = longContent.data.length from rfl, longContent_data,
    List.length_replicate]

theorem historyLines_append (l1 l2 : List HistoryMsg) :
    historyLines (l1 ++ l2) = historyLines l1 ++ historyLines l2 := by
  induction l1 with
  | nil => simp [historyLines]
  | cons m rest ih => simp [historyLines, ih, String.append_assoc]

theorem recentHistory_of_le (h : List HistoryMsg) (hle : h.length ≤ 6) :
    recentHistory h = h := by
  simp [recentHistory, Nat.sub_eq_zero_of_le hle]

theorem recentHistory_append_six (pre tail : List HistoryMsg)
    (ht : tail.length = 6) : recentHistory (pre ++ tail) = tail := by
  have hl : (pre ++ tail).length - 6 = pre.length := by simp [ht]
  rw [recentHistory, hl, List.drop_left]

theorem stripAux_of_no_open (l : List Char) (h : '<' ∉ l) :
    stripAux none l = l := by
  induction l with
  | nil => rfl
  | cons c rest ih =>
    have hc : ¬ c = '<' := fun e => h (e ▸ List.mem_cons_self c rest)
    have hr : '<' ∉ rest := fun e => h (List.mem_cons_of_mem c e)
    simp [stripAux, hc, ih hr]

theorem stripTags_of_no_open (s : String) (h : '<' ∉ s.data) :
    stripTags s = s := by
  cases s with
  | mk l => exact congrArg String.mk (stripAux_of_no_open l h)

theorem stripAux_drop_run (t : List Char) :
    ∀ (buf s : List Char), (∀ c ∈ t, c ≠ '>') → buf ≠ [] →
      stripAux (some buf) (t ++ '>' :: s) = stripAux none s := by
  induction t with
  | nil =>
    intro buf s _ hbuf
    simp [stripAux, hbuf]
  | cons c t' ih =>
    intro buf s ht hbuf
    have hc : ¬ c = '>' := ht c (by simp)
    simp only [List.cons_append, stripAux, hc, if_false]
    exact ih (c :: buf) s (fun d hd => ht d (by simp [hd])) (by simp)

theorem stripTagsList_drops_tag (t s : List Char) (hne : t ≠ [])
    (ht : ∀ c ∈ t, c ≠ '>') :
    stripTagsList ('<' :: (t ++ '>' :: s)) = stripTagsList s := by
  cases t with
  | nil => exact absurd rfl hne
  | cons c t' =>
    have hc : ¬ c = '>' := ht c (by simp)
    simp only [stripTagsList, List.cons_append, stripAux, if_pos rfl, hc, if_false]
    exact stripAux_drop_run t' [c] s (fun d hd => ht d (by simp [hd])) (by simp)

/-- C1: before being embedded in the chat prompt, the conversation history
is truncated to its last six entries: any history with the same final six
entries yields the same prompt, a history of at most six entries is kept
whole, and the retained window is a suffix of at most six entries of the
original list, in original order. -/
theorem history_truncated_to_last_six :
    (∀ (msg : String) (ik : IntakeData) (pre tail : List HistoryMsg),
        tail.length = 6 →
        chat_full_prompt msg ik (pre ++ tail) = chat_full_prompt msg ik tail)
    ∧ (∀ h : List HistoryMsg, h.length ≤ 6 → recentHistory h = h)
    ∧ (∀ h : List HistoryMsg,
        (recentHistory h).length ≤ 6
        ∧ h.take (h.length - 6) ++ recentHistory h = h) := by
  refine ⟨?_, ?_, ?_⟩
  · intro msg ik pre tail ht
    have htne : tail ≠ [] := by
      intro e
      rw [e] at ht
      simp at ht
    have hane : pre ++ tail ≠ [] := by simp [htne]
    have h1 : recentHistory (pre ++ tail) = tail := recentHistory_append_six pre tail ht
    have h2 : recentHistory tail = tail := recentHistory_of_le tail (le_of_eq ht)
    simp [chat_full_prompt, chat_system_context, historyBlock, h1, h2, htne, hane]
  · exact recentHistory_of_le
  · intro h
    refine ⟨?_, ?_⟩
    · simp only [recentHistory, List.length_drop]
      omega
    · rw [recentHistory]
      exact List.take_append_drop _ _

/-- C1 witness: a seven-entry history produces the same prompt as its
final six entries alone. -/
theorem history_truncated_to_last_six_witness :
    chat_full_prompt "m" []
        (List.replicate 1 ⟨some "user", some "early"⟩
          ++ List.replicate 6 ⟨some "user", some "x"⟩)
      = chat_full_prompt "m" [] (List.replicate 6 ⟨some "user", some "x"⟩) :=
  history_truncated_to_last_six.1 "m" [] _ _ (by simp)

/-- C9: a history entry among the last six whose role is neither `user`
nor `assistant` (including a missing role) contributes nothing to the
prompt: its line is empty and deleting it from the processed entries
leaves the accumulated history text unchanged; no error is produced. -/
theorem unknown_role_omitted :
    ∀ (m : HistoryMsg) (l1 l2 : List HistoryMsg),
      m.role.getD "" ≠ "user" → m.role.getD "" ≠ "assistant" →
      historyLine m = ""
      ∧ historyLines (l1 ++ m :: l2) = historyLines (l1 ++ l2) := by
  intro m l1 l2 h1 h2
  have hline : historyLine m = "" := by
    simp [historyLine, h1, h2]
  refine ⟨hline, ?_⟩
  induction l1 with
  | nil => simp [historyLines, hline]
  | cons a t ih => simp [historyLines, ih]

/-- C9 witness: a `system`-role entry between a user and an assistant
entry adds nothing to the accumulated history text. -/
theorem unknown_role_omitted_witness :
    historyLine ⟨some "system", some "secret"⟩ = ""
    ∧ historyLines ([⟨some "user", some "a"⟩]
          ++ ⟨some "system", some "secret"⟩ :: [⟨some "assistant", some "b"⟩])
      = historyLines ([⟨some "user", some "a"⟩] ++ [⟨some "assistant", some "b"⟩]) :=
  unknown_role_omitted ⟨some "system", some "secret"⟩ _ _ (by decide) (by decide)

/-- C8: assistant history entries are embedded with HTML tags (substrings
matching `<[^>]+>`) removed, and when the stripped content exceeds 500
characters the embedded text is its first 500 characters followed by
`"..."`; user entries are embedded verbatim with no stripping or
truncation. -/
theorem assistant_content_stripped_truncated :
    (∀ c : String, historyLine ⟨some "user", some c⟩ = "Patient: " ++ c ++ "\n")
    ∧ (∀ c : String, (stripTags c).length ≤ 500 →
        historyLine ⟨some "assistant", some c⟩ = "You: " ++ stripTags c ++ "\n")
    ∧ (∀ c : String, 500 < (stripTags c).length →
        historyLine ⟨some "assistant", some c⟩
            = "You: " ++ (pyTake 500 (stripTags c) ++ "...") ++ "\n"
          ∧ (pyTake 500 (stripTags c)).length = 500)
    ∧ (∀ t s : List Char, t ≠ [] → (∀ c ∈ t, c ≠ '>') →
        stripTagsList ('<' :: (t ++ '>' :: s)) = stripTagsList s) := by
  refine ⟨?_, ?_, ?_, stripTagsList_drops_tag⟩
  · intro c
    simp [historyLine]
  · intro c hle
    have hn : ¬ 500 < (stripTags c).length := Nat.not_lt.mpr hle
    simp [historyLine, hn]
  · intro c hlen
    refine ⟨by simp [historyLine, hlen], ?_⟩
    have hd : 500 ≤ (stripTags c).data.length := Nat.le_of_lt hlen
    simp [pyTake, mk_length, List.length_take]
    omega

/-- C8 witness: a short tagged assistant message is embedded stripped; a
10000-character assistant message is cut to 500 characters plus an
ellipsis; a user message is embedded verbatim; the tag `<b>` is removed
from the head of a character list. -/
theorem assistant_content_stripped_truncated_witness :
    historyLine ⟨some "user", some "hello"⟩ = "Patient: " ++ "hello" ++ "\n"
    ∧ historyLine ⟨some "assistant", some "hi <b>there</b>"⟩
        = "You: " ++ stripTags "hi <b>there</b>" ++ "\n"
    ∧ historyLine ⟨some "assistant", some longContent⟩
        = "You: " ++ (pyTake 500 (stripTags longContent) ++ "...") ++ "\n"
    ∧ stripTagsList ('<' :: (['b'] ++ '>' :: "x".data)) = stripTagsList "x".data := by
  have hlc : stripTags longContent = longContent := by
    refine stripTags_of_no_open longContent ?_
    rw [longContent_data]
    intro hmem
    exact absurd (List.eq_of_mem_replicate hmem) (by decide)
  have hlen : 500 < (stripTags longContent).length := by
    rw [hlc, longContent_length]
    norm_num
  refine ⟨assistant_content_stripped_truncated.1 "hello", ?_, ?_, ?_⟩
  · exact assistant_content_stripped_truncated.2.1 "hi <b>there</b>" (by decide)
  · exact (assistant_content_stripped_truncated.2.2.1 longContent hlen).1
  · exact assistant_content_stripped_truncated.2.2.2 ['b'] "x".data (by decide) (by decide)

/-- C2 counterexample: a user-role history entry with a 10000-character
content is appended to the prompt verbatim as `"Patient: " ++ content ++
"\n"`, not cut down to its first 500 characters: the accumulated history
text for this single-entry history contains all 10000 characters. -/
theorem user_content_untruncated_cex :
    historyLines (recentHistory [⟨some "user", some longContent⟩])
      = "Patient: " ++ longContent ++ "\n"
    ∧ (500 : Nat) < longContent.length
    ∧ pyTake 500 longContent ≠ longContent := by
  refine ⟨?_, ?_, ?_⟩
  · simp [historyLines, historyLine, recentHistory]
  · rw [longContent_length]
    norm_num
  · intro h
    have hl := congrArg String.length h
    have h1 : (pyTake 500 longContent).length = 500 := by
      rw [show (pyTake 500 longContent).length = (List.take 500 longContent.data).length
          from rfl, List.length_take, longContent_data, List.length_replicate]
      omega
    rw [h1, longContent_length] at hl
    omega

/-- C2 amended: only assistant-role entries are length-limited: an
assistant line never exceeds 509 characters (`"You: "` + at most 500
content characters + `"..."` + newline), while a user-role entry is
embedded verbatim, so its line length is unbounded. -/
theorem per_entry_truncation_amended :
    (∀ c : String, (historyLine ⟨some "assistant", some c⟩).length ≤ 509)
    ∧ (∀ c : String, historyLine ⟨some "user", some c⟩ = "Patient: " ++ c ++ "\n") := by
  constructor
  · intro c
    have hy : ("You: " : String).length = 5 := by decide
    have hn : ("\n" : String).length = 1 := by decide
    have hdots : ("..." : String).length = 3 := by decide
    by_cases hlen : 500 < (stripTags c).length
    · have htake : (pyTake 500 (stripTags c)).length = 500 := by
        have hd : 500 ≤ (stripTags c).data.length := Nat.le_of_lt hlen
        simp [pyTake, mk_length, List.length_take]
        omega
      simp [historyLine, hlen, String.length_append, hy, hn, hdots, htake]
    · have hle : (stripTags c).length ≤ 500 := Nat.le_of_not_lt hlen
      simp [historyLine, hlen, String.length_append, hy, hn]
      omega
  · intro c
    simp [historyLine]

/-- C2 amended witness: the 10000-character user line from the
counterexample is well over the bound, while a 10000-character assistant
content yields a line of at most 509 characters. -/
theorem per_entry_truncation_amended_witness :
    (historyLine ⟨some "assistant", some longContent⟩).length ≤ 509
    ∧ historyLine ⟨some "user", some longContent⟩
        = "Patient: " ++ longContent ++ "\n" :=
  ⟨per_entry_truncation_amended.1 longContent,
   per_entry_truncation_amended.2 longContent⟩

/-- C10: a present-but-falsy required field is rejected exactly like an
absent one: an empty `message` string for the chat endpoint and an empty
`intake_data` object for the consultation endpoint both yield HTTP 400
with an error body, for every oracle and every value of the other
fields. -/
theorem falsy_required_field_400 :
    ∀ (api api2 : String → ApiResult) (h : Option (List HistoryMsg))
      (ik : Option IntakeData),
      chat_api api ⟨"POST", Except.ok ⟨some "", h, ik⟩⟩
          = ⟨400, [("error", "No message provided")]⟩
      ∧ initial_consultation_api api2 ⟨"POST", Except.ok ⟨some []⟩⟩
          = ⟨400, [("error", "No intake data provided")]⟩ := by
  intro api api2 h ik
  exact ⟨rfl, rfl⟩

/-- C3 counterexample: the 400 response to a chat request with an empty
message has the body containing only the error key — it carries no
status field — and likewise the 405 response to a GET request. -/
theorem error_body_without_status_cex :
    chat_api (fun _ => ApiResult.ok "x") ⟨"POST", Except.ok ⟨some "", none, none⟩⟩
        = ⟨400, [("error", "No message provided")]⟩
    ∧ List.lookup "status"
        (chat_api (fun _ => ApiResult.ok "x")
          ⟨"POST", Except.ok ⟨some "", none, none⟩⟩).body = none
    ∧ List.lookup "status"
        (chat_api (fun _ => ApiResult.ok "x") ⟨"GET", Except.ok ⟨some "hi", none, none⟩⟩).body
      = none := by
  exact ⟨rfl, rfl, rfl⟩

/-- C3 amended: every response of the two endpoints is a 200 success body
with keys `response` and `status`; a 500 error body with keys `error` and
`status` (plus `details` from the exception handler); or a 400/405 body
holding only `error`, with no `status` key. -/
theorem response_shapes_amended :
    ∀ (api : String → ApiResult) (req : Request ChatData)
      (api2 : String → ApiResult) (req2 : Request ConsultData),
      wellShaped (chat_api api req) ∧ wellShaped (initial_consultation_api api2 req2) := by
  intro api req api2 req2
  constructor
  · rcases req with ⟨m, body⟩
    by_cases hm : m = "POST"
    · subst hm
      cases body with
      | error e => simp [chat_api, wellShaped]
      | ok d =>
        by_cases hmsg : d.message.getD "" = ""
        · simp [chat_api, wellShaped, hmsg]
        · cases hap : api (chat_full_prompt (d.message.getD "")
              (d.intake_data.getD []) (d.history.getD [])) with
          | exn e => simp [chat_api, wellShaped, hmsg, hap]
          | ok t =>
            by_cases htx : t = ""
            · simp [chat_api, wellShaped, hmsg, hap, htx]
            · simp [chat_api, wellShaped, hmsg, hap, htx]
    · simp [chat_api, wellShaped, hm]
  · rcases req2 with ⟨m, body⟩
    by_cases hm : m = "POST"
    · subst hm
      cases body with
      | error e => simp [initial_consultation_api, wellShaped]
      | ok d =>
        by_cases hik : d.intake_data.getD [] = []
        · simp [initial_consultation_api, wellShaped, hik]
        · cases hap : api2 (consult_prompt (d.intake_data.getD [])) with
          | exn e => simp [initial_consultation_api, wellShaped, hik, hap]
          | ok t =>
            by_cases htx : t = ""
            · simp [initial_consultation_api, wellShaped, hik, hap, htx]
            · simp [initial_consultation_api, wellShaped, hik, hap, htx]
    · simp [initial_consultation_api, wellShaped, hm]

/-- C4: a POST request missing its required field (`message` for the chat
endpoint, `intake_data` for the consultation endpoint) yields HTTP 400
with an error body; the result is the same for every oracle, so the
external API is never consulted. -/
theorem missing_required_field_400 :
    ∀ (api api2 : String → ApiResult) (h : Option (List HistoryMsg))
      (ik : Option IntakeData),
      chat_api api ⟨"POST", Except.ok ⟨none, h, ik⟩⟩
          = ⟨400, [("error", "No message provided")]⟩
      ∧ initial_consultation_api api2 ⟨"POST", Except.ok ⟨none⟩⟩
          = ⟨400, [("error", "No intake data provided")]⟩ := by
  intro api api2 h ik
  exact ⟨rfl, rfl⟩

/-- C5: a request whose method is not POST yields HTTP 405 with a JSON
error body on both endpoints; the result is the same for every body
(even an unparseable one) and every oracle, so no body parsing, prompt
construction, or external call takes place. -/
theorem non_post_method_405 :
    ∀ (api api2 : String → ApiResult) (m : String)
      (b : Except String ChatData) (b2 : Except String ConsultData),
      m ≠ "POST" →
      chat_api api ⟨m, b⟩ = ⟨405, [("error", "Method not allowed")]⟩
      ∧ initial_consultation_api api2 ⟨m, b2⟩
          = ⟨405, [("error", "Method not allowed")]⟩ := by
  intro api api2 m b b2 hm
  constructor
  · simp [chat_api, hm]
  · simp [initial_consultation_api, hm]

/-- C5 witness: a GET request with an unparseable body gets 405 from both
endpoints. -/
theorem non_post_method_405_witness :
    chat_api (fun _ => ApiResult.ok "x") ⟨"GET", Except.error "bad json"⟩
        = ⟨405, [("error", "Method not allowed")]⟩
    ∧ initial_consultation_api (fun _ => ApiResult.ok "x")
        ⟨"GET", Except.error "bad json"⟩
        = ⟨405, [("error", "Method not allowed")]⟩ :=
  non_post_method_405 _ _ "GET" _ _ (by decide)

/-- C6: on a valid POST request, when the external call returns non-empty
text the endpoint answers HTTP 200 with `response` equal to exactly that
text and `status` equal to `success`. -/
theorem api_success_relayed :
    (∀ (api : String → ApiResult) (d : ChatData) (t : String),
      d.message.getD "" ≠ "" →
      api (chat_full_prompt (d.message.getD "") (d.intake_data.getD [])
            (d.history.getD [])) = ApiResult.ok t →
      t ≠ "" →
      chat_api api ⟨"POST", Except.ok d⟩
        = ⟨200, [("response", t), ("status", "success")]⟩)
    ∧ (∀ (api : String → ApiResult) (d : ConsultData) (t : String),
      d.intake_data.getD [] ≠ [] →
      api (consult_prompt (d.intake_data.getD [])) = ApiResult.ok t →
      t ≠ "" →
      initial_consultation_api api ⟨"POST", Except.ok d⟩
        = ⟨200, [("response", t), ("status", "success")]⟩) := by
  constructor
  · intro api d t hmsg hap ht
    simp [chat_api, hmsg, hap, ht]
  · intro api d t hik hap ht
    simp [initial_consultation_api, hik, hap, ht]

/-- C6 witness: a constant oracle answering "Hello" is relayed verbatim
with status success by both endpoints. -/
theorem api_success_relayed_witness :
    chat_api (fun _ => ApiResult.ok "Hello")
        ⟨"POST", Except.ok ⟨some "hi", none, none⟩⟩
        = ⟨200, [("response", "Hello"), ("status", "success")]⟩
    ∧ initial_consultation_api (fun _ => ApiResult.ok "Hello")
        ⟨"POST", Except.ok ⟨some [("symptom", "cough")]⟩⟩
        = ⟨200, [("response", "Hello"), ("status", "success")]⟩ :=
  ⟨api_success_relayed.1 _ ⟨some "hi", none, none⟩ "Hello" (by decide) rfl (by decide),
   api_success_relayed.2 _ ⟨some [("symptom", "cough")]⟩ "Hello" (by decide) rfl
     (by decide)⟩

/-- C7: an exception raised while handling a POST request — a body that
fails to parse, or an external-call failure — is caught by the
per-endpoint handler, which answers HTTP 500 with `status` `error` and
`details` holding the exception message. -/
theorem exception_yields_500 :
    (∀ (api : String → ApiResult) (e : String),
      chat_api api ⟨"POST", Except.error e⟩
        = ⟨500, [("error", "An error occurred while processing your request"),
                 ("details", e), ("status", "error")]⟩)
    ∧ (∀ (api : String → ApiResult) (d : ChatData) (e : String),
      d.message.getD "" ≠ "" →
      api (chat_full_prompt (d.message.getD "") (d.intake_data.getD [])
            (d.history.getD [])) = ApiResult.exn e →
      chat_api api ⟨"POST", Except.ok d⟩
        = ⟨500, [("error", "An error occurred while processing your request"),
                 ("details", e), ("status", "error")]⟩)
    ∧ (∀ (api : String → ApiResult) (e : String),
      initial_consultation_api api ⟨"POST", Except.error e⟩
        = ⟨500, [("error", "An error occurred"), ("details", e), ("status", "error")]⟩)
    ∧ (∀ (api : String → ApiResult) (d : ConsultData) (e : String),
      d.intake_data.getD [] ≠ [] →
      api (consult_prompt (d.intake_data.getD [])) = ApiResult.exn e →
      initial_consultation_api api ⟨"POST", Except.ok d⟩
        = ⟨500, [("error", "An error occurred"), ("details", e),
                 ("status", "error")]⟩) := by
  refine ⟨?_, ?_, ?_, ?_⟩
  · intro api e
    rfl
  · intro api d e hmsg hap
    simp [chat_api, hmsg, hap]
  · intro api e
    rfl
  · intro api d e hik hap
    simp [initial_consultation_api, hik, hap]

/-- C7 witness: an oracle that raises "quota exceeded" produces the 500
error envelope with the message in the details field, on both
endpoints. -/
theorem exception_yields_500_witness :
    chat_api (fun _ => ApiResult.exn "quota exceeded")
        ⟨"POST", Except.ok ⟨some "hi", none, none⟩⟩
        = ⟨500, [("error", "An error occurred while processing your request"),
                 ("details", "quota exceeded"), ("status", "error")]⟩
    ∧ initial_consultation_api (fun _ => ApiResult.exn "quota exceeded")
        ⟨"POST", Except.ok ⟨some [("symptom", "cough")]⟩⟩
        = ⟨500, [("error", "An error occurred"), ("details", "quota exceeded"),
                 ("status", "error")]⟩ :=
  ⟨exception_yields_500.2.1 _ ⟨some "hi", none, none⟩ "quota exceeded"
      (by decide) rfl,
   exception_yields_500.2.2.2 _ ⟨some [("symptom", "cough")]⟩ "quota exceeded"
      (by decide) rfl⟩

end MedAI
